import Mathlib

/-
Verification of the Either-monad library (src/src/either.ts and the
either-types.ts free functions).  Shallow embedding: TypeScript fields of
type `T | undefined` are modelled as `Option T` with `none` standing for
the JavaScript value `undefined`; a factory argument that may be
`undefined` is therefore an `Option`-typed argument.  Thrown JavaScript
errors are modelled with `Except String`, carrying the thrown error's
message.
-/

namespace EitherLib

/-- The `Either<T, E>` class of src/src/either.ts: a `value` field of type
`T | undefined`, an `error` field of type `E | undefined`, and the private
boolean discriminant `_isOk`, all set by the private constructor. -/
structure Either (T E : Type) where
  value : Option T
  error : Option E
  _isOk : Bool
  deriving DecidableEq

/-- `Either.Ok(value)`: `new Either(value, undefined, true)`.  The argument
is the runtime value passed to the factory; `none` models the call
`Either.Ok(undefined)`. -/
def Either.Ok {T E : Type} (value : Option T) : Either T E :=
  ⟨value, none, true⟩

/-- `Either.Error(error)`: `new Either(undefined, error, false)`. -/
def Either.Error {T E : Type} (error : Option E) : Either T E :=
  ⟨none, error, false⟩

/-- `isOk()`: `return this._isOk`. -/
def Either.isOk {T E : Type} (x : Either T E) : Bool :=
  x._isOk

/-- `isError()`: `return !this._isOk`. -/
def Either.isError {T E : Type} (x : Either T E) : Bool :=
  !x._isOk

/-- `getValue()`: throws `new Error('Cannot access value in a non-Ok
instance')` when `!this.isOk()`, else returns `this.value as T`.  The
throw is modelled as `Except.error` carrying the thrown error's message
(the spec names this condition `InvalidStateAccess`). -/
def Either.getValue {T E : Type} (x : Either T E) : Except String (Option T) :=
  if !x.isOk then Except.error "Cannot access value in a non-Ok instance"
  else Except.ok x.value

/-- `getError()`: throws `new Error('Cannot access error in a non-Error
instance')` when `!this.isError()`, else returns `this.error as E`. -/
def Either.getError {T E : Type} (x : Either T E) : Except String (Option E) :=
  if !x.isError then Except.error "Cannot access error in a non-Error instance"
  else Except.ok x.error

/-- `zip(other)`: `this.isError() ? Either.Error(this.error as E) :
other.isError() ? Either.Error(other.getError()) :
Either.Ok([this.value as T, other.getValue()])`.  `other.getError()` is
invoked only under `other.isError()`, where it returns the stored `error`
field, and `other.getValue()` only under `other.isOk()`, where it returns
the stored `value` field; the embedding inlines those field reads.  The
two-element array result is itself a defined value, hence `some`. -/
def Either.zip {T U E : Type} (x : Either T E) (other : Either U E) :
    Either (Option T × Option U) E :=
  if x.isError then Either.Error x.error
  else if other.isError then Either.Error other.error
  else Either.Ok (some (x.value, other.value))

/-- `filter(predicate, error)`: `this.isOk() && predicate(this.value as T)
? this : Either.Error(error)`. -/
def Either.filter {T E : Type} (x : Either T E) (predicate : Option T → Bool)
    (error : Option E) : Either T E :=
  if x.isOk && predicate x.value then x else Either.Error error

/-- `swap()`: `this.isOk() ? Either.Error(this.value) :
Either.Ok(this.error)` (the `as` casts in the source are runtime
identities). -/
def Either.swap {T E : Type} (x : Either T E) : Either E T :=
  if x.isOk then Either.Error x.value else Either.Ok x.error

/-- Loop body of `sequence` (either-types.ts): iterates over the array,
returning `Either.Error(either.getError())` at the first element with
`isError()` true, otherwise pushing `either.getValue()` onto `results`.
Both accessors are invoked under the guard that makes them return the
stored field, which the embedding inlines. -/
def sequenceGo {T E : Type} : List (Either T E) → List (Option T) →
    Either (List (Option T)) E
  | [], results => Either.Ok (some results)
  | e :: rest, results =>
      if e.isError then Either.Error e.error
      else sequenceGo rest (results ++ [e.value])

/-- `sequence(eithers)` (either-types.ts): the loop above started with an
empty `results` array; the final `Either.Ok(results)` wraps the (defined)
array value. -/
def sequence {T E : Type} (eithers : List (Either T E)) :
    Either (List (Option T)) E :=
  sequenceGo eithers []

/-- Loop body of `partition` (either-types.ts): pushes `getValue()` of each
`isOk()` element onto `oks` and `getError()` of each other element onto
`errors`. -/
def partitionGo {T E : Type} : List (Either T E) → List (Option T) →
    List (Option E) → List (Option T) × List (Option E)
  | [], oks, errors => (oks, errors)
  | e :: rest, oks, errors =>
      if e.isOk then partitionGo rest (oks ++ [e.value]) errors
      else partitionGo rest oks (errors ++ [e.error])

/-- `partition(eithers)` (either-types.ts): the loop above started with two
empty arrays. -/
def partition {T E : Type} (eithers : List (Either T E)) :
    List (Option T) × List (Option E) :=
  partitionGo eithers [] []

/-- Loop body of `traverse` (either-types.ts): applies `fn` to each input
value, returning `Either.Error(either.getError())` at the first result
with `isError()` true, otherwise pushing `either.getValue()`. -/
def traverseGo {A U E : Type} (fn : A → Either U E) : List A →
    List (Option U) → Either (List (Option U)) E
  | [], results => Either.Ok (some results)
  | v :: rest, results =>
      let e := fn v
      if e.isError then Either.Error e.error
      else traverseGo fn rest (results ++ [e.value])

/-- `traverse(values, fn)` (either-types.ts). -/
def traverse {A U E : Type} (values : List A) (fn : A → Either U E) :
    Either (List (Option U)) E :=
  traverseGo fn values []

/-- `sequenceAll(eithers)` (either-types.ts; re-exported as
`collectAllErrors` with legacy alias `sequenceAll` in the index file):
`const [oks, errors] = partition(eithers); return errors.length > 0 ?
Either.Error(errors) : Either.Ok(oks)`. -/
def sequenceAll {T E : Type} (eithers : List (Either T E)) :
    Either (List (Option T)) (List (Option E)) :=
  let p := partition eithers
  if 0 < p.2.length then Either.Error (some p.2) else Either.Ok (some p.1)

/-- C1: the claim states that `Ok(undefined).isOk()` and
`Ok(undefined).isError()` are both `false`.  On the source's flag-based
implementation `isOk()` returns the `_isOk` field, which `Ok` sets to
`true` unconditionally, so `Ok(undefined).isOk()` is `true`: the claim is
false at this concrete input. -/
theorem c1_ok_undefined_counterexample :
    ¬ ((Either.Ok none : Either Nat String).isOk = false ∧
       (Either.Ok none : Either Nat String).isError = false) := by
  decide

/-- C1 (amended): `Ok(undefined)` reports the success state: `isOk()`
returns `true` and `isError()` returns `false`, because the state queries
read the construction-time `_isOk` flag, not payload presence. -/
theorem c1_ok_undefined_reports_success :
    (Either.Ok none : Either Nat String).isOk = true ∧
    (Either.Ok none : Either Nat String).isError = false := by
  decide

/-- C2: `filter(p, errorIfFails)` on a failure-state instance returns a
failure wrapping `errorIfFails` for every predicate `p` (so `p` is never
consulted) and every original failure payload `e0` (which is discarded);
on a success-state instance it returns the original instance unchanged
when `p(value)` holds and a failure wrapping `errorIfFails` otherwise. -/
theorem c2_filter_spec {T E : Type} :
    (∀ (e0 err : Option E) (p : Option T → Bool),
        (Either.Error e0 : Either T E).filter p err = Either.Error err) ∧
    ∀ (v : Option T) (err : Option E) (p : Option T → Bool),
        (Either.Ok v : Either T E).filter p err =
          if p v then Either.Ok v else Either.Error err := by
  constructor
  · intro e0 err p
    simp [Either.filter, Either.isOk, Either.Error]
  · intro v err p
    cases hp : p v <;>
      simp [Either.filter, Either.isOk, Either.Ok, Either.Error, hp]

/-- C5: `a.zip(b)` wraps the ordered pair when both participants are
success instances; a left failure short-circuits with its own payload for
every right operand `b` (left precedence, covering `Error(e1).zip(Error(e2))`),
and only an `Ok`-left / `Error`-right pair yields the right payload. -/
theorem c5_zip_spec {T U E : Type} :
    (∀ (v : Option T) (u : Option U),
        (Either.Ok v : Either T E).zip (Either.Ok u) = Either.Ok (some (v, u))) ∧
    (∀ (e : Option E) (b : Either U E),
        (Either.Error e : Either T E).zip b = Either.Error e) ∧
    ∀ (v : Option T) (e : Option E),
        (Either.Ok v : Either T E).zip (Either.Error e : Either U E) =
          Either.Error e := by
  refine ⟨?_, ?_, ?_⟩
  · intro v u
    simp [Either.zip, Either.isError, Either.Ok, Either.Error]
  · intro e b
    simp [Either.zip, Either.isError, Either.Ok, Either.Error]
  · intro v e
    simp [Either.zip, Either.isError, Either.Ok, Either.Error]

/-- C9: `getValue()` returns the success payload on a success instance and
fails with the `InvalidStateAccess` message "Cannot access value in a
non-Ok instance" exactly on failure instances; dually `getError()` returns
the failure payload on a failure instance and fails with "Cannot access
error in a non-Error instance" exactly on success instances. -/
theorem c9_getValue_getError_spec {T E : Type} :
    (∀ v : Option T, (Either.Ok v : Either T E).getValue = Except.ok v) ∧
    (∀ e : Option E, (Either.Error e : Either T E).getValue =
        Except.error "Cannot access value in a non-Ok instance") ∧
    (∀ e : Option E, (Either.Error e : Either T E).getError = Except.ok e) ∧
    ∀ v : Option T, (Either.Ok v : Either T E).getError =
        Except.error "Cannot access error in a non-Error instance" := by
  refine ⟨?_, ?_, ?_, ?_⟩ <;> intro a <;>
    simp [Either.getValue, Either.getError, Either.isOk, Either.isError,
      Either.Ok, Either.Error]

/-- C10: `Ok(v).swap()` is a failure instance with payload `v`,
`Error(e).swap()` is a success instance with payload `e`, and `swap` is an
involution on factory-built instances: applying it twice restores the
original discriminant and payload. -/
theorem c10_swap_spec {T E : Type} :
    (∀ v : Option T, (Either.Ok v : Either T E).swap = Either.Error v) ∧
    (∀ e : Option E, (Either.Error e : Either T E).swap = Either.Ok e) ∧
    (∀ v : Option T, (Either.Ok v : Either T E).swap.swap = Either.Ok v) ∧
    ∀ e : Option E, (Either.Error e : Either T E).swap.swap = Either.Error e := by
  refine ⟨?_, ?_, ?_, ?_⟩ <;> intro a <;>
    simp [Either.swap, Either.isOk, Either.Ok, Either.Error]

/-- `isError()` is the boolean negation of `isOk()`: both read the same
`_isOk` flag. -/
theorem isError_eq_not_isOk {T E : Type} (x : Either T E) :
    x.isError = !x.isOk := rfl

/-- Closed form of the `sequence` loop: the result is determined by the
first element satisfying `isError` (fail-fast) and otherwise by the
ordered list of stored values appended to the accumulator. -/
theorem sequenceGo_eq {T E : Type} (l : List (Either T E))
    (acc : List (Option T)) :
    sequenceGo l acc =
      match l.find? Either.isError with
      | some e => Either.Error e.error
      | none => Either.Ok (some (acc ++ l.map Either.value)) := by
  induction l generalizing acc with
  | nil => simp [sequenceGo]
  | cons e rest ih =>
      cases he : e.isError with
      | true =>
          rw [sequenceGo]
          simp [he, List.find?_cons_of_pos, he]
      | false =>
          rw [sequenceGo]
          simp only [he, Bool.false_eq_true, if_false, ih]
          rw [List.find?_cons_of_neg _ (by simp [he])]
          cases rest.find? Either.isError <;> simp

/-- Closed form of the `partition` loop: successes and failures are
appended to their buckets in input order. -/
theorem partitionGo_eq {T E : Type} (l : List (Either T E))
    (oks : List (Option T)) (errors : List (Option E)) :
    partitionGo l oks errors =
      (oks ++ (l.filter Either.isOk).map Either.value,
       errors ++ (l.filter Either.isError).map Either.error) := by
  induction l generalizing oks errors with
  | nil => simp [partitionGo]
  | cons e rest ih =>
      cases he : e.isOk with
      | true =>
          rw [partitionGo]
          simp [he, ih, List.filter_cons, isError_eq_not_isOk]
      | false =>
          rw [partitionGo]
          simp [he, ih, List.filter_cons, isError_eq_not_isOk]

/-- The `traverse` loop is the `sequence` loop run on the mapped list. -/
theorem traverseGo_eq_sequenceGo {A U E : Type} (fn : A → Either U E)
    (l : List A) (acc : List (Option U)) :
    traverseGo fn l acc = sequenceGo (l.map fn) acc := by
  induction l generalizing acc with
  | nil => rfl
  | cons v rest ih =>
      rw [traverseGo, List.map_cons, sequenceGo]
      cases h : (fn v).isError <;> simp [h, ih]

/-- C3: `sequence` of the empty list is a success wrapping the empty list;
in general the result is a failure wrapping the payload of the first
failure element of the input (first-error-wins), and a success wrapping
the ordered list of extracted values when no element is a failure. -/
theorem c3_sequence_spec {T E : Type} :
    sequence ([] : List (Either T E)) = Either.Ok (some []) ∧
    ∀ l : List (Either T E),
      sequence l =
        match l.find? Either.isError with
        | some e => Either.Error e.error
        | none => Either.Ok (some (l.map Either.value)) := by
  constructor
  · rfl
  · intro l
    rw [sequence, sequenceGo_eq]
    cases l.find? Either.isError <;> simp

/-- C4: `sequenceAll` (exported as `collectAllErrors`, legacy alias
`sequenceAll`) partitions the input and returns a failure wrapping the
entire ordered list of failure payloads whenever at least one element is a
failure (no short-circuit), and otherwise a success wrapping the ordered
list of success payloads. -/
theorem c4_sequenceAll_spec {T E : Type} (l : List (Either T E)) :
    sequenceAll l =
      if 0 < ((l.filter Either.isError).map Either.error).length
      then Either.Error (some ((l.filter Either.isError).map Either.error))
      else Either.Ok (some ((l.filter Either.isOk).map Either.value)) := by
  simp [sequenceAll, partition, partitionGo_eq]

/-- C8: `traverse(values, fn)` coincides with mapping `fn` over the input
and then applying `sequence`: same fail-fast first-error result and same
order-preserving success result. -/
theorem c8_traverse_eq_map_then_sequence {A U E : Type}
    (values : List A) (fn : A → Either U E) :
    traverse values fn = sequence (values.map fn) := by
  rw [traverse, sequence, traverseGo_eq_sequenceGo]

/-- Universe of JavaScript values that can be thrown and caught by the
safe-wrapping functions: an `Error` instance (carrying its `message`),
a string, a number, a boolean, `null`, `undefined`, or a plain non-null
object given by its enumerable fields. -/
inductive JSValue where
  | err (message : String)
  | str (s : String)
  | num (n : Int)
  | bool (b : Bool)
  | nullV
  | undef
  | obj (fields : List (String × JSValue))

/-- JavaScript `String(v)` default conversion for the values of
`JSValue`. -/
def jsToString : JSValue → String
  | .err m => "Error: " ++ m
  | .str s => s
  | .num n => toString n
  | .bool b => if b then "true" else "false"
  | .nullV => "null"
  | .undef => "undefined"
  | .obj _ => "[object Object]"

/-- Indentation of `n` spaces. -/
def indentStr (n : Nat) : String :=
  String.mk (List.replicate n ' ')

mutual

/-- Model of the host's `JSON.stringify(v, null, 2)` on a single value at
the given indentation depth: `none` models the `undefined` result (an
`undefined` value, whose object entries are omitted); `Error` instances
serialize as an empty object (no enumerable own properties). -/
def stringifyVal (indent : Nat) : JSValue → Option String
  | .err _ => some "\x7b\x7d"
  | .str s => some ("\"" ++ s ++ "\"")
  | .num n => some (toString n)
  | .bool b => some (if b then "true" else "false")
  | .nullV => some "null"
  | .undef => none
  | .obj fields =>
      some (match stringifyFields (indent + 2) fields with
        | [] => "\x7b\x7d"
        | parts =>
            "\x7b\n" ++ String.intercalate ",\n" parts ++ "\n" ++
              indentStr indent ++ "\x7d")

/-- Serialized `"key": value` lines of an object's fields, skipping fields
whose value serializes to `undefined`. -/
def stringifyFields (indent : Nat) : List (String × JSValue) → List String
  | [] => []
  | (k, v) :: rest =>
      match stringifyVal indent v with
      | none => stringifyFields indent rest
      | some sv =>
          (indentStr indent ++ "\"" ++ k ++ "\": " ++ sv) ::
            stringifyFields indent rest

end

/-- `safeStringify(data)` (either-types.ts): `JSON.stringify(data, null, 2)`
— it is only ever applied to non-null objects, where the stringifier
returns a string. -/
def safeStringify (data : JSValue) : String :=
  (stringifyVal 0 data).getD "undefined"

/-- `extractErrorMessage(error)` (either-types.ts):
`error instanceof Error ? error.message : typeof error === 'string' ?
error : typeof error === 'object' && error !== null ? safeStringify(error)
: String(error)`.  The match arms follow the source's conditional order;
`null` fails the `!== null` test and falls through to `String(null)`. -/
def extractErrorMessage : JSValue → String
  | .err m => m
  | .str s => s
  | .obj fields => safeStringify (.obj fields)
  | v => jsToString v

/-- A synchronous operation handed to `safeSync`: it either returns a value
(possibly `undefined`) or throws a `JSValue`. -/
def SyncOp (T : Type) : Type := Unit → Except JSValue (Option T)

/-- `safeSync({fn, ErrClass})` (either-types.ts): `try { return
Either.Ok(fn()) } catch (error) { return Either.Error(new
ErrClass(extractErrorMessage(error))) }`.  `ErrClass` is modelled by the
message-to-error-instance function its constructor denotes. -/
def safeSync {T E : Type} (fn : SyncOp T) (ErrClass : String → E) :
    Either T E :=
  match fn () with
  | Except.ok v => Either.Ok v
  | Except.error e => Either.Error (some (ErrClass (extractErrorMessage e)))

/-- The value an awaited `safeAsync` operation resolves to: either an
`Either` instance (the source detects this with `value instanceof Either`)
or a plain value (possibly `undefined`). -/
inductive Resolved (T E : Type) where
  | either (e : Either T E)
  | plain (v : Option T)

/-- An asynchronous operation handed to `safeAsync`: awaiting it either
resolves to a `Resolved` value or rejects/throws a `JSValue`. -/
def AsyncOp (T E : Type) : Type := Unit → Except JSValue (Resolved T E)

/-- `safeAsync({fn, ErrClass})` (either-types.ts): awaits `fn()`; if the
resolved value is an `Either` instance it is returned unchanged, otherwise
it is wrapped with `Either.Ok`; a rejection or thrown value is normalized
with `extractErrorMessage` and wrapped via `ErrClass` into a failure. -/
def safeAsync {T E : Type} (fn : AsyncOp T E) (ErrClass : String → E) :
    Either T E :=
  match fn () with
  | Except.ok (Resolved.either e) => e
  | Except.ok (Resolved.plain v) => Either.Ok v
  | Except.error e => Either.Error (some (ErrClass (extractErrorMessage e)))

/-- C6: `safeSync` wraps a normal return in a success instance and converts
every thrown value into a failure instance built via the error constructor
(never re-throwing), with the message given by the normalization policy:
an `Error`'s own `message`, a thrown string verbatim (so throwing "boom"
yields message exactly "boom"), a non-null object's indented
serialization, and otherwise the default string conversion. -/
theorem c6_safeSync_spec {T E : Type} :
    (∀ (v : Option T) (C : String → E),
        safeSync (fun _ => Except.ok v) C = Either.Ok v) ∧
    (∀ (ev : JSValue) (C : String → E),
        safeSync (T := T) (fun _ => Except.error ev) C =
          Either.Error (some (C (extractErrorMessage ev)))) ∧
    (∀ m, extractErrorMessage (JSValue.err m) = m) ∧
    (∀ s, extractErrorMessage (JSValue.str s) = s) ∧
    (∀ fields, extractErrorMessage (JSValue.obj fields) =
        safeStringify (JSValue.obj fields)) ∧
    (∀ n, extractErrorMessage (JSValue.num n) = jsToString (JSValue.num n)) ∧
    (∀ b, extractErrorMessage (JSValue.bool b) = jsToString (JSValue.bool b)) ∧
    (extractErrorMessage JSValue.nullV = jsToString JSValue.nullV) ∧
    (extractErrorMessage JSValue.undef = jsToString JSValue.undef) ∧
    ∀ (C : String → E),
        safeSync (T := T) (fun _ => Except.error (JSValue.str "boom")) C =
          Either.Error (some (C "boom")) := by
  refine ⟨fun v C => rfl, fun ev C => rfl, fun m => rfl, fun s => rfl,
    fun fields => rfl, fun n => rfl, fun b => rfl, rfl, rfl, fun C => rfl⟩

/-- C7: `safeAsync` always resolves to an Either: a resolution that is
already an `Either` instance is returned unchanged (flattening, no double
wrapping — in particular an already-wrapped `Ok`), any other resolution is
wrapped in a success instance, and a rejection or thrown value becomes a
failure built via the error constructor under the same normalization
policy as `safeSync`. -/
theorem c7_safeAsync_spec {T E : Type} :
    (∀ (e : Either T E) (C : String → E),
        safeAsync (fun _ => Except.ok (Resolved.either e)) C = e) ∧
    (∀ (v : Option T) (C : String → E),
        safeAsync (fun _ => Except.ok (Resolved.plain v)) C = Either.Ok v) ∧
    ∀ (ev : JSValue) (C : String → E),
        safeAsync (T := T) (fun _ => Except.error ev) C =
          Either.Error (some (C (extractErrorMessage ev))) := by
  exact ⟨fun e C => rfl, fun v C => rfl, fun ev C => rfl⟩

end EitherLib
